import Mathlib

/-!
Verification development for the drug-deaths analytics dashboard
(`drugs.py`): a shallow embedding of its data-preparation pipeline
(`load_data`) and its filter/aggregation logic, together with theorems
checking the specification's claims against that embedding.

Modelling conventions:
* A raw CSV cell that may be absent is an `Option`.
* `pd.to_datetime(..., errors='coerce')` is modelled by `DateCell`:
  a date cell is either missing, parses to a calendar date (only its year
  is ever consumed, via `.dt.year`, so we carry the year), or is
  unparseable text (which `errors='coerce'` turns into NaT = missing).
* An age cell is missing, an integer value, or non-numeric text; pandas
  `dropna` removes only missing cells, and `.astype(int)` on a surviving
  non-numeric text cell raises, which we model by `Option`-valued failure
  of the whole load.
* Column selection on a missing column raises `KeyError` in pandas, so the
  aggregations that select fixed column lists are `Option`-valued as well.
-/

/-- A raw `Date` cell as seen by `pd.to_datetime(..., errors='coerce')`:
missing, a parseable date (we retain the year, the only component the
program reads), or unparseable text coerced to NaT. -/
inductive DateCell where
  | missing
  | valid (year : Int)
  | invalid (raw : String)
deriving DecidableEq, Repr

/-- A raw `Age` cell: missing, an integer value, or non-numeric text. -/
inductive AgeCell where
  | missing
  | num (n : Int)
  | text (s : String)
deriving DecidableEq, Repr

/-- One raw CSV row. `drugs` holds the cells of the indicator columns
present in the file, keyed by column name (a missing key or a `none`
value is an empty cell). -/
structure RawRow where
  date : DateCell
  age : AgeCell
  sex : Option String
  race : Option String
  deathCounty : Option String
  drugs : List (String × Option String)
deriving DecidableEq, Repr

/-- The raw CSV: which indicator columns the file has, and its rows. -/
structure RawTable where
  drugCols : List String
  rows : List RawRow
deriving DecidableEq, Repr

/-- One prepared record (a row of the DataFrame after `load_data`).
`drugs` holds the converted 0/1 indicator columns. -/
structure Record where
  age : Int
  sex : String
  race : String
  deathCounty : String
  year : Int
  drugs : List (String × Nat)
deriving DecidableEq, Repr

/-- The prepared DataFrame: its indicator columns and its records. -/
structure PreparedTable where
  drugCols : List String
  rows : List Record
deriving DecidableEq, Repr

/-- `pd.to_datetime(df['Date'], errors='coerce')`: unparseable text
becomes NaT, i.e. missing. -/
def parseDate : DateCell → Option Int
  | .valid y => some y
  | _ => none

/-- `df['Age'].astype(int)` on one cell: succeeds exactly on integer
values (a non-numeric text cell raises `ValueError`). -/
def coerceAge : AgeCell → Option Int
  | .num n => some n
  | _ => none

/-- Whether an `Age` cell is NaN for the purposes of `dropna`.
Non-numeric text is NOT missing: `dropna` keeps it. -/
def ageIsMissing : AgeCell → Bool
  | .missing => true
  | _ => false

/-- The row survives
`df.dropna(subset=['Date','Age','Sex','Race','DeathCounty'])`
(after the `Date` column has been coerced by `to_datetime`). -/
def requiredOk (r : RawRow) : Bool :=
  (parseDate r.date).isSome && !(ageIsMissing r.age) &&
    r.sex.isSome && r.race.isSome && r.deathCounty.isSome

/-- The fixed list of indicator columns `load_data` converts. -/
def drug_columns : List String :=
  ["Heroin", "Cocaine", "Fentanyl", "Oxycodone", "Oxymorphone",
   "Ethanol", "Hydrocodone", "Benzodiazepine", "Methadone",
   "Amphet", "Tramad", "Morphine_NotHeroin"]

/-- `df[col].map({'Y': 1}).fillna(0).astype(int)` on one cell:
the literal "Y" maps to 1, everything else (other text, empty, absent)
to 0. -/
def to01 (o : Option String) : Nat :=
  if o = some "Y" then 1 else 0

/-- Look up a cell of a named indicator column in a raw row. -/
def cellOf (cells : List (String × Option String)) (c : String) :
    Option String :=
  match cells.find? (fun p => p.1 == c) with
  | some p => p.2
  | none => none

/-- Build one prepared record from a surviving raw row: coerce the age
(`astype(int)` fails on non-numeric text), take the parsed date's year,
and convert every indicator column present in the file that is also in
`drug_columns` (`if col in df.columns`). -/
def mkRecord (cols : List String) (r : RawRow) : Option Record :=
  match parseDate r.date, coerceAge r.age, r.sex, r.race, r.deathCounty with
  | some y, some a, some s, some rc, some dc =>
    some { age := a, sex := s, race := rc, deathCounty := dc, year := y,
           drugs := (cols.filter (fun c => drug_columns.contains c)).map
             (fun c => (c, to01 (cellOf r.drugs c))) }
  | _, _, _, _, _ => none

/-- Build all records, failing if any single row's coercion fails
(as `astype(int)` raises for the whole column). -/
def buildRecords (cols : List String) : List RawRow → Option (List Record)
  | [] => some []
  | r :: rs =>
    match mkRecord cols r, buildRecords cols rs with
    | some rec, some recs => some (rec :: recs)
    | _, _ => none

/-- `load_data(path)`: parse dates, drop rows missing any critical field,
coerce age to int, derive the year, convert the indicator columns.
`none` models the load raising an exception. -/
def load_data (t : RawTable) : Option PreparedTable :=
  (buildRecords t.drugCols (t.rows.filter requiredOk)).map
    (fun rs => { drugCols := t.drugCols, rows := rs })

/-- The sidebar filter state: selected county ("All" or one county),
inclusive age range, selected gender ("All" or one sex value). -/
structure Selection where
  countyFilter : String
  ageMin : Int
  ageMax : Int
  genderFilter : String
deriving DecidableEq, Repr

/-- One record passes the three sidebar filters:
`df['Age'].between(*selected_age)` (inclusive on both ends), then the
county filter unless "All", then the gender filter unless "All". -/
def matchesFilters (sel : Selection) (r : Record) : Bool :=
  (sel.ageMin ≤ r.age && r.age ≤ sel.ageMax) &&
    (sel.countyFilter == "All" || r.deathCounty == sel.countyFilter) &&
    (sel.genderFilter == "All" || r.sex == sel.genderFilter)

/-- `df_filtered`: the prepared table restricted to records passing the
current filters (columns are unchanged). -/
def df_filtered (t : PreparedTable) (sel : Selection) : PreparedTable :=
  { drugCols := t.drugCols, rows := t.rows.filter (matchesFilters sel) }

/-- `len(df_filtered)` (the "Total Deaths" metric). -/
def total_deaths (t : PreparedTable) : Nat := t.rows.length

/-- `int(df_filtered['Age'].mean())` (the "Average Age" metric):
on an empty table `mean()` is NaN and `int(NaN)` raises, modelled by
`none`; otherwise the exact mean truncated toward zero (Python `int()`
truncates toward zero). -/
def average_age (t : PreparedTable) : Option Int :=
  if t.rows.length = 0 then none
  else some (Int.tdiv ((t.rows.map Record.age).sum) (t.rows.length : Int))

/-- The value of a named converted indicator column in a record
(0 if the record has no such column). -/
def indicatorVal (r : Record) (c : String) : Nat :=
  match r.drugs.find? (fun p => p.1 == c) with
  | some p => p.2
  | none => 0

/-- `int(df_filtered[name].sum())` for a converted indicator column
(e.g. the "Fentanyl-Involved Deaths" metric): selecting an absent
column raises `KeyError`, modelled by `none`. -/
def indicator_count (t : PreparedTable) (name : String) : Option Nat :=
  if t.drugCols.contains name && drug_columns.contains name then
    some ((t.rows.map (fun r => indicatorVal r name)).sum)
  else none

/-- Insert a year into a strictly sorted list of years, skipping
duplicates. -/
def insertUniq (y : Int) : List Int → List Int
  | [] => [y]
  | x :: xs =>
    if y < x then y :: x :: xs
    else if y = x then x :: xs
    else x :: insertUniq y xs

/-- The strictly ascending list of the distinct elements of `l`
(the group keys of a pandas `groupby`, which sorts keys ascending). -/
def sortDedup (l : List Int) : List Int := l.foldr insertUniq []

/-- `df_filtered.groupby('Year').size()`: one entry per distinct year
present, keys sorted ascending, value = number of rows of that year. -/
def deaths_by_year (t : PreparedTable) : List (Int × Nat) :=
  (sortDedup (t.rows.map Record.year)).map
    (fun y => (y, (t.rows.filter (fun r => r.year == y)).length))

/-- Insert a (name, count) pair into a list sorted ascending by count. -/
def insertByCount (p : String × Nat) :
    List (String × Nat) → List (String × Nat)
  | [] => [p]
  | q :: qs =>
    if p.2 ≤ q.2 then p :: q :: qs else q :: insertByCount p qs

/-- Sort a list of (name, count) pairs ascending by count
(`sort_values('Count', ascending=True)` / `sort_values(ascending=True)`;
tie order among equal counts is unspecified by pandas and by the spec). -/
def sortByCount (l : List (String × Nat)) : List (String × Nat) :=
  l.foldr insertByCount []

/-- `df_filtered['DeathCounty'].value_counts()` then
`.sort_values('Count', ascending=True)`: one entry per distinct county
present with its row count, sorted ascending by count. -/
def deaths_by_county (t : PreparedTable) : List (String × Nat) :=
  sortByCount (((t.rows.map Record.deathCounty).dedup).map
    (fun c => (c, (t.rows.filter (fun r => r.deathCounty == c)).length)))

/-- The fixed substance list the dashboard charts. -/
def substances : List String :=
  ["Heroin", "Cocaine", "Fentanyl", "Oxycodone", "Oxymorphone",
   "Ethanol", "Hydrocodone", "Benzodiazepine", "Methadone"]

/-- `df_filtered[substances].sum().sort_values(ascending=True)`:
selecting the nine columns raises `KeyError` (modelled by `none`) if any
is absent; otherwise each substance's column sum, sorted ascending. -/
def sub_counts (t : PreparedTable) : Option (List (String × Nat)) :=
  if substances.all (fun s => t.drugCols.contains s) then
    some (sortByCount (substances.map
      (fun s => (s, (t.rows.map (fun r => indicatorVal r s)).sum))))
  else none

/-- The data handed to `px.histogram(df_filtered, x='Age', color='Sex')`:
the (age, sex) pairs of the filtered view (binning and rendering are the
charting layer's job, outside the program's own logic). -/
def age_sex_pairs (t : PreparedTable) : List (Int × String) :=
  t.rows.map (fun r => (r.age, r.sex))

/-! ### List helper lemmas for the sorted aggregations -/

theorem mem_insertUniq (a y : Int) (l : List Int) :
    a ∈ insertUniq y l ↔ a = y ∨ a ∈ l := by
  induction l with
  | nil => simp [insertUniq]
  | cons x xs ih =>
    simp only [insertUniq]
    by_cases h1 : y < x
    · rw [if_pos h1]
      simp [List.mem_cons]
    · rw [if_neg h1]
      by_cases h2 : y = x
      · subst h2
        rw [if_pos rfl]
        simp [List.mem_cons]
      · rw [if_neg h2]
        simp [List.mem_cons, ih]
        tauto

theorem pairwise_insertUniq (y : Int) (l : List Int)
    (h : l.Pairwise (· < ·)) : (insertUniq y l).Pairwise (· < ·) := by
  induction l with
  | nil => simp [insertUniq]
  | cons x xs ih =>
    rcases List.pairwise_cons.1 h with ⟨hx, hxs⟩
    simp only [insertUniq]
    by_cases h1 : y < x
    · rw [if_pos h1]
      refine List.pairwise_cons.2 ⟨?_, h⟩
      intro b hb
      rcases List.mem_cons.1 hb with rfl | hbxs
      · exact h1
      · exact lt_trans h1 (hx b hbxs)
    · rw [if_neg h1]
      by_cases h2 : y = x
      · rw [if_pos h2]
        exact h
      · rw [if_neg h2]
        have hxy : x < y := by omega
        refine List.pairwise_cons.2 ⟨?_, ih hxs⟩
        intro b hb
        rcases (mem_insertUniq b y xs).1 hb with rfl | hbxs
        · exact hxy
        · exact hx b hbxs

theorem mem_sortDedup (a : Int) (l : List Int) :
    a ∈ sortDedup l ↔ a ∈ l := by
  induction l with
  | nil => simp [sortDedup]
  | cons x xs ih =>
    show a ∈ insertUniq x (sortDedup xs) ↔ _
    rw [mem_insertUniq]
    simp [List.mem_cons, ih]

theorem pairwise_sortDedup (l : List Int) :
    (sortDedup l).Pairwise (· < ·) := by
  induction l with
  | nil => simp [sortDedup]
  | cons x xs ih => exact pairwise_insertUniq x (sortDedup xs) ih

theorem perm_insertByCount (p : String × Nat) (l : List (String × Nat)) :
    List.Perm (insertByCount p l) (p :: l) := by
  induction l with
  | nil => exact List.Perm.refl _
  | cons q qs ih =>
    simp only [insertByCount]
    by_cases h : p.2 ≤ q.2
    · rw [if_pos h]
    · rw [if_neg h]
      exact (List.Perm.cons q ih).trans (List.Perm.swap p q qs)

theorem perm_sortByCount (l : List (String × Nat)) :
    List.Perm (sortByCount l) l := by
  induction l with
  | nil => exact List.Perm.refl _
  | cons p ps ih =>
    exact (perm_insertByCount p (sortByCount ps)).trans (List.Perm.cons p ih)

theorem pairwise_insertByCount (p : String × Nat) (l : List (String × Nat))
    (h : l.Pairwise (fun a b => a.2 ≤ b.2)) :
    (insertByCount p l).Pairwise (fun a b => a.2 ≤ b.2) := by
  induction l with
  | nil => simp [insertByCount]
  | cons q qs ih =>
    rcases List.pairwise_cons.1 h with ⟨hq, hqs⟩
    simp only [insertByCount]
    by_cases hle : p.2 ≤ q.2
    · rw [if_pos hle]
      refine List.pairwise_cons.2 ⟨?_, h⟩
      intro b hb
      rcases List.mem_cons.1 hb with rfl | hbqs
      · exact hle
      · exact le_trans hle (hq b hbqs)
    · rw [if_neg hle]
      refine List.pairwise_cons.2 ⟨?_, ih hqs⟩
      intro b hb
      have hb2 : b = p ∨ b ∈ qs := by
        have := (perm_insertByCount p qs).mem_iff.1 hb
        simpa using this
      rcases hb2 with rfl | hbqs
      · omega
      · exact hq b hbqs

theorem pairwise_sortByCount (l : List (String × Nat)) :
    (sortByCount l).Pairwise (fun a b => a.2 ≤ b.2) := by
  induction l with
  | nil => simp [sortByCount]
  | cons p ps ih => exact pairwise_insertByCount p (sortByCount ps) ih

/-! ### Sample records for the spec's concrete scenarios -/

/-- An age-39 record (for the age-range boundary scenario). -/
def rec39 : Record :=
  { age := 39, sex := "M", race := "White", deathCounty := "Hartford",
    year := 2016, drugs := [] }

/-- An age-40 record (for the age-range boundary scenario). -/
def rec40 : Record :=
  { age := 40, sex := "F", race := "White", deathCounty := "Fairfield",
    year := 2017, drugs := [] }

/-! ### C1 -/

/-- C1: a record is in the filtered view iff it is in the prepared table,
its age lies in the inclusive `[ageMin, ageMax]` range, the county filter
is "All" or equals its county, and the gender filter is "All" or equals
its sex; in particular with ageRange = (40, 40) an age-39 record is
excluded and an age-40 record of the table is included. -/
theorem C1_filtered_view_iff (t : PreparedTable) (sel : Selection) (r : Record) :
    (r ∈ (df_filtered t sel).rows ↔
      r ∈ t.rows ∧ sel.ageMin ≤ r.age ∧ r.age ≤ sel.ageMax ∧
        (sel.countyFilter = "All" ∨ r.deathCounty = sel.countyFilter) ∧
        (sel.genderFilter = "All" ∨ r.sex = sel.genderFilter)) ∧
    (r.age = 39 → r ∉ (df_filtered t ⟨"All", 40, 40, "All"⟩).rows) ∧
    (r.age = 40 → r ∈ t.rows → r ∈ (df_filtered t ⟨"All", 40, 40, "All"⟩).rows) := by
  refine ⟨?_, ?_, ?_⟩
  · simp only [df_filtered, List.mem_filter, matchesFilters, Bool.and_eq_true,
      Bool.or_eq_true, beq_iff_eq, decide_eq_true_eq, and_assoc]
  · intro h39 hmem
    have hm := (List.mem_filter.1 hmem).2
    simp only [matchesFilters, Bool.and_eq_true, decide_eq_true_eq] at hm
    obtain ⟨⟨⟨hA, hB⟩, -⟩, -⟩ := hm
    omega
  · intro h40 hmem
    refine List.mem_filter.2 ⟨hmem, ?_⟩
    simp [matchesFilters, h40]

/-- Witness for C1 at concrete inputs: with the age range (40, 40),
`rec39` is excluded from the filtered view and `rec40` is included. -/
theorem C1_filtered_view_iff_witness :
    rec39 ∉ (df_filtered ⟨[], [rec39, rec40]⟩ ⟨"All", 40, 40, "All"⟩).rows ∧
    rec40 ∈ (df_filtered ⟨[], [rec39, rec40]⟩ ⟨"All", 40, 40, "All"⟩).rows := by
  constructor
  · exact (C1_filtered_view_iff ⟨[], [rec39, rec40]⟩ ⟨"All", 40, 40, "All"⟩
      rec39).2.1 rfl
  · exact (C1_filtered_view_iff ⟨[], [rec39, rec40]⟩ ⟨"All", 40, 40, "All"⟩
      rec40).2.2 rfl (by simp)

/-- A 2016 Hartford record (deaths-over-time scenario). -/
def recY1 : Record :=
  { age := 30, sex := "M", race := "White", deathCounty := "Hartford",
    year := 2016, drugs := [] }

/-- Another 2016 Hartford record (deaths-over-time scenario). -/
def recY2 : Record :=
  { age := 31, sex := "F", race := "Black", deathCounty := "Hartford",
    year := 2016, drugs := [] }

/-- A 2017 Fairfield record (deaths-over-time scenario). -/
def recY3 : Record :=
  { age := 32, sex := "M", race := "White", deathCounty := "Fairfield",
    year := 2017, drugs := [] }

/-- A table with two 2016 records and one 2017 record. -/
def tY : PreparedTable := { drugCols := [], rows := [recY1, recY2, recY3] }

/-! ### C5 -/

/-- C5: `deaths_by_year` has strictly ascending year keys (hence exactly
one entry per distinct year and no zero-filled absent years), a year
appears among the keys iff some record of the view has that year, each
entry's count is the number of records with that year, and the two-2016
one-2017 scenario yields [(2016, 2), (2017, 1)]. -/
theorem C5_deaths_over_time :
    (∀ t : PreparedTable,
      ((deaths_by_year t).map Prod.fst).Pairwise (· < ·) ∧
      (∀ y : Int,
        y ∈ (deaths_by_year t).map Prod.fst ↔ ∃ r ∈ t.rows, r.year = y) ∧
      (∀ p ∈ deaths_by_year t,
        p.2 = (t.rows.filter (fun r => r.year == p.1)).length)) ∧
    deaths_by_year tY = [(2016, 2), (2017, 1)] := by
  constructor
  · intro t
    have hkeys : (deaths_by_year t).map Prod.fst =
        sortDedup (t.rows.map Record.year) := by
      simp [deaths_by_year, List.map_map, Function.comp_def]
    refine ⟨?_, ?_, ?_⟩
    · rw [hkeys]
      exact pairwise_sortDedup _
    · intro y
      rw [hkeys, mem_sortDedup, List.mem_map]
    · intro p hp
      simp only [deaths_by_year, List.mem_map] at hp
      obtain ⟨a, ha, rfl⟩ := hp
      rfl
  · decide

/-- Witness for C5: applying the count clause to the concrete table
with years 2016, 2016, 2017 at the entry (2016, 2). -/
theorem C5_deaths_over_time_witness :
    ((2016 : Int), 2).2 =
      (tY.rows.filter (fun r => r.year == ((2016 : Int), 2).1)).length :=
  (C5_deaths_over_time.1 tY).2.2 (2016, 2) (by decide)

/-! ### C9 -/

/-- C9: `deaths_by_county` is sorted ascending by count, has pairwise
distinct county keys, a county appears among the keys iff some record of
the view has that county, and each entry's count is the number of records
with that county. -/
theorem C9_deaths_by_county (t : PreparedTable) :
    (deaths_by_county t).Pairwise (fun a b => a.2 ≤ b.2) ∧
    ((deaths_by_county t).map Prod.fst).Nodup ∧
    (∀ c : String,
      c ∈ (deaths_by_county t).map Prod.fst ↔ ∃ r ∈ t.rows, r.deathCounty = c) ∧
    (∀ p ∈ deaths_by_county t,
      p.2 = (t.rows.filter (fun r => r.deathCounty == p.1)).length) := by
  have hperm : List.Perm (deaths_by_county t)
      (((t.rows.map Record.deathCounty).dedup).map
        (fun c => (c, (t.rows.filter (fun r => r.deathCounty == c)).length))) :=
    perm_sortByCount _
  have hkeysperm : List.Perm ((deaths_by_county t).map Prod.fst)
      ((t.rows.map Record.deathCounty).dedup) := by
    have h2 := hperm.map Prod.fst
    simpa [List.map_map, Function.comp_def] using h2
  refine ⟨?_, ?_, ?_, ?_⟩
  · exact pairwise_sortByCount _
  · exact hkeysperm.nodup_iff.2 (List.nodup_dedup _)
  · intro c
    rw [hkeysperm.mem_iff, List.mem_dedup, List.mem_map]
  · intro p hp
    have hpb := hperm.mem_iff.1 hp
    simp only [List.mem_map] at hpb
    obtain ⟨c, hc, rfl⟩ := hpb
    rfl

/-- Witness for C9: the count clause at the concrete table with two
Hartford records and one Fairfield record, at the entry (Hartford, 2). -/
theorem C9_deaths_by_county_witness :
    ("Hartford", 2).2 =
      (tY.rows.filter (fun r => r.deathCounty == ("Hartford", 2).1)).length :=
  (C9_deaths_by_county tY).2.2.2 ("Hartford", 2) (by decide)

/-! ### Pipeline lemmas -/

theorem to01_eq_one (o : Option String) : to01 o = 1 ↔ o = some "Y" := by
  unfold to01
  by_cases h : o = some "Y" <;> simp [h]

theorem to01_le_one (o : Option String) : to01 o ≤ 1 := by
  unfold to01
  by_cases h : o = some "Y" <;> simp [h]

theorem buildRecords_forall₂ (cols : List String) :
    ∀ (rows : List RawRow) (recs : List Record),
      buildRecords cols rows = some recs →
      List.Forall₂ (fun r rec => mkRecord cols r = some rec) rows recs := by
  intro rows
  induction rows with
  | nil =>
    intro recs h
    simp only [buildRecords, Option.some.injEq] at h
    subst h
    exact List.Forall₂.nil
  | cons r rs ih =>
    intro recs h
    simp only [buildRecords] at h
    cases hm : mkRecord cols r with
    | none => rw [hm] at h; simp at h
    | some rec =>
      cases hb : buildRecords cols rs with
      | none => rw [hm, hb] at h; simp at h
      | some recs' =>
        rw [hm, hb] at h
        simp only [Option.some.injEq] at h
        subst h
        exact List.Forall₂.cons hm (ih recs' hb)

theorem buildRecords_isSome (cols : List String) :
    ∀ rows : List RawRow,
      (buildRecords cols rows).isSome = true ↔
        ∀ r ∈ rows, (mkRecord cols r).isSome = true := by
  intro rows
  induction rows with
  | nil => simp [buildRecords]
  | cons r rs ih =>
    simp only [buildRecords]
    cases hm : mkRecord cols r with
    | none => simp [hm, List.forall_mem_cons]
    | some rec =>
      cases hb : buildRecords cols rs with
      | none => simp [hm, hb, List.forall_mem_cons, ← ih]
      | some recs => simp [hm, hb, List.forall_mem_cons, ← ih]

theorem mkRecord_some_drugs (cols : List String) (r : RawRow) (rec : Record)
    (h : mkRecord cols r = some rec) :
    rec.drugs = (cols.filter (fun c => drug_columns.contains c)).map
      (fun c => (c, to01 (cellOf r.drugs c))) := by
  unfold mkRecord at h
  split at h
  · simp only [Option.some.injEq] at h
    rw [← h]
  · simp at h

theorem mkRecord_isSome (cols : List String) (r : RawRow)
    (h : requiredOk r = true) :
    (mkRecord cols r).isSome = true ↔ ∀ s, r.age ≠ AgeCell.text s := by
  simp only [requiredOk, Bool.and_eq_true, Bool.not_eq_true'] at h
  obtain ⟨⟨⟨⟨hd, ha⟩, hs⟩, hr2⟩, hc⟩ := h
  obtain ⟨y, hy⟩ := Option.isSome_iff_exists.1 hd
  obtain ⟨sv, hsv⟩ := Option.isSome_iff_exists.1 hs
  obtain ⟨rv, hrv⟩ := Option.isSome_iff_exists.1 hr2
  obtain ⟨cv, hcv⟩ := Option.isSome_iff_exists.1 hc
  unfold mkRecord
  rw [hy, hsv, hrv, hcv]
  cases hage : r.age with
  | missing => rw [hage] at ha; simp [ageIsMissing] at ha
  | num n => simp [coerceAge]
  | text s0 =>
    simp only [coerceAge]
    constructor
    · intro h'
      simp at h'
    · intro h'
      exact absurd rfl (h' s0)

theorem find?_key_map (f : String → Nat) (c : String) (l : List String) :
    ((l.map (fun x => (x, f x))).find? (fun p => p.1 == c)) =
      if c ∈ l then some (c, f c) else none := by
  induction l with
  | nil => simp
  | cons x xs ih =>
    simp only [List.map_cons, List.find?_cons]
    by_cases hx : x = c
    · subst hx
      simp
    · have hbeq : (((x, f x) : String × Nat).1 == c) = false := by
        simp [hx]
      have hcx : ¬ c = x := fun h2 => hx h2.symm
      simp [hbeq, ih, List.mem_cons, hcx]

/-! ### Sample raw rows (spec §8 scenario shapes) -/

/-- A complete raw row: all five critical fields present, Fentanyl "Y". -/
def rowGood : RawRow :=
  { date := .valid 2015, age := .num 34, sex := some "M",
    race := some "White", deathCounty := some "Hartford",
    drugs := [("Fentanyl", some "Y")] }

/-- A raw row with a missing age (to be dropped). -/
def rowNoAge : RawRow :=
  { date := .valid 2015, age := .missing, sex := some "F",
    race := some "White", deathCounty := some "Hartford", drugs := [] }

/-- A raw row whose date text does not parse (coerced to missing,
then dropped). -/
def rowBadDate : RawRow :=
  { date := .invalid "??", age := .num 50, sex := some "M",
    race := some "Black", deathCounty := some "Fairfield", drugs := [] }

/-- A raw row whose age is non-numeric text: it survives `dropna`
(text is not NaN) and then breaks `astype(int)`. -/
def rowBadAge : RawRow :=
  { date := .valid 2015, age := .text "Unknown", sex := some "M",
    race := some "White", deathCounty := some "Hartford", drugs := [] }

/-- A small raw table: one complete row, one missing-age row, one
unparseable-date row; only the Fentanyl indicator column exists. -/
def rawT : RawTable :=
  { drugCols := ["Fentanyl"], rows := [rowGood, rowNoAge, rowBadDate] }

/-- The prepared record `load_data` derives from `rowGood`. -/
def recGood : Record :=
  { age := 34, sex := "M", race := "White", deathCounty := "Hartford",
    year := 2015, drugs := [("Fentanyl", 1)] }

/-- The prepared table `load_data` produces from `rawT`. -/
def ptT : PreparedTable := { drugCols := ["Fentanyl"], rows := [recGood] }

/-! ### C2 -/

/-- C2: when the load succeeds, the prepared records correspond one-to-one
in order with exactly the raw rows that survive the drop step, a raw row
survives iff its parsed date, age, sex, race and deathCounty are all
present (so every prepared record is built from a row with all five
fields non-null — `Record`'s fields are total by construction), and a row
whose date fails to parse counts as missing (it is dropped, not an
error). -/
theorem C2_drop_incomplete (t : RawTable) (pt : PreparedTable)
    (h : load_data t = some pt) :
    List.Forall₂ (fun r rec => mkRecord t.drugCols r = some rec)
      (t.rows.filter requiredOk) pt.rows ∧
    (∀ r : RawRow, requiredOk r = true ↔
      ((parseDate r.date).isSome = true ∧ ageIsMissing r.age = false ∧
        r.sex.isSome = true ∧ r.race.isSome = true ∧
        r.deathCounty.isSome = true)) ∧
    (∀ (r : RawRow) (s : String), r.date = DateCell.invalid s →
      requiredOk r = false) := by
  refine ⟨?_, ?_, ?_⟩
  · unfold load_data at h
    cases hb : buildRecords t.drugCols (t.rows.filter requiredOk) with
    | none => rw [hb] at h; simp at h
    | some rs =>
      rw [hb] at h
      simp only [Option.map_some', Option.some.injEq] at h
      subst h
      exact buildRecords_forall₂ _ _ _ hb
  · intro r
    simp [requiredOk, Bool.and_eq_true, Bool.not_eq_true', and_assoc]
  · intro r s hds
    simp [requiredOk, hds, parseDate]

/-- Witness for C2: the three-row raw table loads to exactly the one
record derived from its single complete row. -/
theorem C2_drop_incomplete_witness :
    List.Forall₂ (fun r rec => mkRecord rawT.drugCols r = some rec)
      (rawT.rows.filter requiredOk) ptT.rows :=
  (C2_drop_incomplete rawT ptT (by decide)).1

/-! ### C3 -/

/-- C3: in a record built from a raw row, each indicator column of the
fixed list that is present in the source schema equals 1 iff the raw cell
was exactly "Y" (any other, empty or absent marker gives 0, never an
error, and the value is always 0 or 1), while an indicator column absent
from the source schema produces no entry in the record at all. -/
theorem C3_indicator_mapping (cols : List String) (r : RawRow) (rec : Record)
    (h : mkRecord cols r = some rec) :
    ∀ c ∈ drug_columns,
      (c ∈ cols →
        (indicatorVal rec c = 1 ↔ cellOf r.drugs c = some "Y") ∧
        indicatorVal rec c ≤ 1) ∧
      (c ∉ cols → rec.drugs.find? (fun p => p.1 == c) = none) := by
  intro c hc
  have hdrugs := mkRecord_some_drugs cols r rec h
  constructor
  · intro hcc
    have hmem : c ∈ cols.filter (fun c => drug_columns.contains c) :=
      List.mem_filter.2 ⟨hcc, List.elem_iff.2 hc⟩
    have hfind : rec.drugs.find? (fun p => p.1 == c) =
        some (c, to01 (cellOf r.drugs c)) := by
      rw [hdrugs, find?_key_map, if_pos hmem]
    constructor
    · unfold indicatorVal
      rw [hfind]
      exact to01_eq_one _
    · unfold indicatorVal
      rw [hfind]
      exact to01_le_one _
  · intro hcc
    have hmem : c ∉ cols.filter (fun c => drug_columns.contains c) :=
      fun hm => hcc (List.mem_filter.1 hm).1
    rw [hdrugs, find?_key_map, if_neg hmem]

/-- Witness for C3: in the record built from `rowGood`, Fentanyl (present,
marked "Y") is 1, and Heroin (absent from the schema) has no entry. -/
theorem C3_indicator_mapping_witness :
    indicatorVal recGood "Fentanyl" = 1 ∧
    recGood.drugs.find? (fun p => p.1 == "Heroin") = none := by
  constructor
  · exact ((C3_indicator_mapping ["Fentanyl"] rowGood recGood (by decide)
      "Fentanyl" (by decide)).1 (by decide)).1.mpr (by decide)
  · exact (C3_indicator_mapping ["Fentanyl"] rowGood recGood (by decide)
      "Heroin" (by decide)).2 (by decide)

/-! ### C4 -/

/-- C4 counterexample: a row whose age is non-numeric text is NOT treated
as missing — it survives the drop step — and the load then fails with an
error, contradicting "treated as missing and dropped ... never raises an
error". -/
theorem C4_counterexample :
    requiredOk rowBadAge = true ∧
    load_data { drugCols := [], rows := [rowBadAge] } = none := by
  decide

/-- C4 amended: non-numeric age text is not removed by the missing-value
drop (it is not NaN), and the integer coercion is total over the
surviving rows iff no surviving row has non-numeric age text; when one
does, the whole load fails with an error instead of dropping the row. -/
theorem C4_age_coercion (t : RawTable) :
    ((load_data t).isSome = true ↔
      ∀ r ∈ t.rows.filter requiredOk, ∀ s, r.age ≠ AgeCell.text s) ∧
    (∀ s, ageIsMissing (AgeCell.text s) = false) := by
  constructor
  · have h1 : (load_data t).isSome =
        (buildRecords t.drugCols (t.rows.filter requiredOk)).isSome := by
      unfold load_data
      cases hb : buildRecords t.drugCols (t.rows.filter requiredOk) <;> rfl
    rw [h1, buildRecords_isSome]
    constructor
    · intro h' r hr s
      exact ((mkRecord_isSome t.drugCols r
        ((List.mem_filter.1 hr).2)).1 (h' r hr)) s
    · intro h' r hr
      exact (mkRecord_isSome t.drugCols r
        ((List.mem_filter.1 hr).2)).2 (h' r hr)
  · intro s
    rfl

/-! ### Provenance lemmas for the aggregation claims -/

theorem forall₂_mem_right {α β : Type} {R : α → β → Prop} :
    ∀ {l₁ : List α} {l₂ : List β}, List.Forall₂ R l₁ l₂ →
      ∀ b ∈ l₂, ∃ a ∈ l₁, R a b := by
  intro l₁ l₂ h
  induction h with
  | nil => intro b hb; simp at hb
  | cons hr ht ih =>
    intro b hb
    rcases List.mem_cons.1 hb with rfl | hb2
    · exact ⟨_, List.mem_cons_self _ _, hr⟩
    · obtain ⟨a, ha, hab⟩ := ih b hb2
      exact ⟨a, List.mem_cons_of_mem _ ha, hab⟩

theorem load_data_drugCols (t : RawTable) (pt : PreparedTable)
    (h : load_data t = some pt) : pt.drugCols = t.drugCols := by
  unfold load_data at h
  cases hb : buildRecords t.drugCols (t.rows.filter requiredOk) with
  | none => rw [hb] at h; simp at h
  | some rs =>
    rw [hb] at h
    simp only [Option.map_some', Option.some.injEq] at h
    subst h
    rfl

theorem load_data_drugs_le_one (t : RawTable) (pt : PreparedTable)
    (h : load_data t = some pt) :
    ∀ rec ∈ pt.rows, ∀ q ∈ rec.drugs, q.2 ≤ 1 := by
  unfold load_data at h
  cases hb : buildRecords t.drugCols (t.rows.filter requiredOk) with
  | none => rw [hb] at h; simp at h
  | some rs =>
    rw [hb] at h
    simp only [Option.map_some', Option.some.injEq] at h
    subst h
    intro rec hrec q hq
    obtain ⟨r, hr, hmk⟩ :=
      forall₂_mem_right (buildRecords_forall₂ _ _ _ hb) rec hrec
    rw [mkRecord_some_drugs _ _ _ hmk] at hq
    simp only [List.mem_map] at hq
    obtain ⟨c, hc, rfl⟩ := hq
    exact to01_le_one _

theorem indicatorVal_le_one (rec : Record)
    (hrec : ∀ q ∈ rec.drugs, q.2 ≤ 1) (s : String) :
    indicatorVal rec s ≤ 1 := by
  unfold indicatorVal
  cases hf : rec.drugs.find? (fun p => p.1 == s) with
  | none => simp
  | some q => exact hrec q (List.mem_of_find?_eq_some hf)

theorem sum_eq_countP_one :
    ∀ l : List Nat, (∀ x ∈ l, x ≤ 1) →
      l.sum = l.countP (fun x => x == 1) := by
  intro l
  induction l with
  | nil => simp
  | cons x xs ih =>
    intro h
    have hx : x ≤ 1 := h x (List.mem_cons_self x xs)
    have hxs := ih (fun y hy => h y (List.mem_cons_of_mem x hy))
    rw [List.sum_cons, List.countP_cons]
    rcases Nat.le_one_iff_eq_zero_or_eq_one.1 hx with rfl | rfl
    · simp [hxs]
    · simp [hxs]
      omega

/-- A raw table with all twelve indicator columns and one complete row
marked "Y" for Fentanyl only. -/
def rawF : RawTable := { drugCols := drug_columns, rows := [rowGood] }

/-- The prepared record `load_data` derives from `rowGood` under the full
twelve-column schema. -/
def recF : Record :=
  { age := 34, sex := "M", race := "White", deathCounty := "Hartford",
    year := 2015,
    drugs := [("Heroin", 0), ("Cocaine", 0), ("Fentanyl", 1),
              ("Oxycodone", 0), ("Oxymorphone", 0), ("Ethanol", 0),
              ("Hydrocodone", 0), ("Benzodiazepine", 0), ("Methadone", 0),
              ("Amphet", 0), ("Tramad", 0), ("Morphine_NotHeroin", 0)] }

/-- The prepared table `load_data` produces from `rawF`. -/
def ptF : PreparedTable := { drugCols := drug_columns, rows := [recF] }

/-- A selection that keeps everything. -/
def selAll : Selection := ⟨"All", 0, 150, "All"⟩

/-- A selection with an empty age range (keeps nothing). -/
def selNone : Selection := ⟨"All", 1, 0, "All"⟩

/-- The substance chart data for `ptF` under `selAll`. -/
def resF : List (String × Nat) :=
  [("Heroin", 0), ("Cocaine", 0), ("Oxycodone", 0), ("Oxymorphone", 0),
   ("Ethanol", 0), ("Hydrocodone", 0), ("Benzodiazepine", 0),
   ("Methadone", 0), ("Fentanyl", 1)]

/-! ### C6 -/

/-- C6: when `sub_counts` on a filtered view of a loaded table succeeds,
its entries' names are exactly the nine enumerated substances (one entry
each, never Amphet, Tramad or Morphine_NotHeroin even though those
indicators exist in the prepared table), each count is the number of view
records whose indicator is 1 (i.e. whose raw cell was "Y"), and the
sequence is sorted ascending by count. -/
theorem C6_substance_frequency (raw : RawTable) (pt : PreparedTable)
    (sel : Selection) (res : List (String × Nat))
    (hl : load_data raw = some pt)
    (hres : sub_counts (df_filtered pt sel) = some res) :
    List.Perm (res.map Prod.fst) substances ∧
    (∀ p ∈ res, p.1 ∈ substances ∧
      p.1 ∉ (["Amphet", "Tramad", "Morphine_NotHeroin"] : List String)) ∧
    (∀ p ∈ res,
      p.2 = ((df_filtered pt sel).rows.filter
        (fun r => indicatorVal r p.1 == 1)).length) ∧
    res.Pairwise (fun a b => a.2 ≤ b.2) := by
  unfold sub_counts at hres
  split at hres
  · simp only [Option.some.injEq] at hres
    subst hres
    have hperm := perm_sortByCount (substances.map
      (fun s => (s, ((df_filtered pt sel).rows.map
        (fun r => indicatorVal r s)).sum)))
    have hle : ∀ r ∈ (df_filtered pt sel).rows, ∀ q ∈ r.drugs, q.2 ≤ 1 :=
      fun r hr => load_data_drugs_le_one raw pt hl r (List.mem_filter.1 hr).1
    refine ⟨?_, ?_, ?_, ?_⟩
    · have hbase : (substances.map (fun s => (s, ((df_filtered pt sel).rows.map
          (fun r => indicatorVal r s)).sum))).map Prod.fst = substances := by
        simp [List.map_map, Function.comp_def]
      exact hbase ▸ hperm.map Prod.fst
    · intro p hp
      have hpb := hperm.mem_iff.1 hp
      simp only [List.mem_map] at hpb
      obtain ⟨s, hs, rfl⟩ := hpb
      refine ⟨hs, ?_⟩
      have hnot : ∀ x ∈ substances,
          x ∉ (["Amphet", "Tramad", "Morphine_NotHeroin"] : List String) := by
        decide
      exact hnot _ hs
    · intro p hp
      have hpb := hperm.mem_iff.1 hp
      simp only [List.mem_map] at hpb
      obtain ⟨s, hs, rfl⟩ := hpb
      show ((df_filtered pt sel).rows.map (fun r => indicatorVal r s)).sum = _
      rw [sum_eq_countP_one]
      · rw [List.countP_map, List.countP_eq_length_filter]
        rfl
      · intro x hx
        simp only [List.mem_map] at hx
        obtain ⟨r, hr, rfl⟩ := hx
        exact indicatorVal_le_one r (hle r hr) s
    · exact pairwise_sortByCount _
  · simp at hres

/-- Witness for C6: the concrete table `ptF` under the all-pass selection
yields `resF`, whose names are a permutation of the nine substances. -/
theorem C6_substance_frequency_witness :
    List.Perm (resF.map Prod.fst) substances :=
  (C6_substance_frequency rawF ptF selAll resF (by decide) (by decide)).1

/-! ### C8 -/

/-- C8: on a non-empty filtered view of a loaded table (with the usual
non-negative ages), `total_deaths` is the number of view records,
`average_age` produces a value equal to the truncated arithmetic mean of
the ages (the integer a with a·n ≤ sum < (a+1)·n), and for any converted
indicator column present in the source, `indicator_count` is the number
of view records whose indicator is 1. -/
theorem C8_scalar_summaries (raw : RawTable) (pt : PreparedTable)
    (sel : Selection)
    (hl : load_data raw = some pt)
    (hne : (df_filtered pt sel).rows ≠ [])
    (hages : ∀ r ∈ (df_filtered pt sel).rows, 0 ≤ r.age) :
    total_deaths (df_filtered pt sel) = (df_filtered pt sel).rows.length ∧
    (∃ a : Int, average_age (df_filtered pt sel) = some a ∧
      a * ((df_filtered pt sel).rows.length : Int) ≤
        ((df_filtered pt sel).rows.map Record.age).sum ∧
      ((df_filtered pt sel).rows.map Record.age).sum <
        (a + 1) * ((df_filtered pt sel).rows.length : Int)) ∧
    (∀ name ∈ drug_columns, name ∈ raw.drugCols →
      indicator_count (df_filtered pt sel) name =
        some (((df_filtered pt sel).rows.filter
          (fun r => indicatorVal r name == 1)).length)) := by
  refine ⟨rfl, ?_, ?_⟩
  · have hlen : (df_filtered pt sel).rows.length ≠ 0 :=
      fun h0 => hne (List.length_eq_zero.1 h0)
    have hn0 : (0 : Int) < ((df_filtered pt sel).rows.length : Int) := by
      exact_mod_cast Nat.pos_of_ne_zero hlen
    have hS : 0 ≤ ((df_filtered pt sel).rows.map Record.age).sum := by
      apply List.sum_nonneg
      intro x hx
      simp only [List.mem_map] at hx
      obtain ⟨r, hr, rfl⟩ := hx
      exact hages r hr
    refine ⟨Int.tdiv (((df_filtered pt sel).rows.map Record.age).sum)
      (((df_filtered pt sel).rows.length : Int)), ?_, ?_, ?_⟩
    · unfold average_age
      rw [if_neg hlen]
    · rw [Int.tdiv_eq_ediv hS (le_of_lt hn0)]
      have h := Int.ediv_add_emod (((df_filtered pt sel).rows.map Record.age).sum)
        (((df_filtered pt sel).rows.length : Int))
      have h1 := Int.emod_nonneg (((df_filtered pt sel).rows.map Record.age).sum)
        (ne_of_gt hn0)
      calc _ = ((df_filtered pt sel).rows.length : Int) *
            ((((df_filtered pt sel).rows.map Record.age).sum) /
              (((df_filtered pt sel).rows.length : Int))) := mul_comm _ _
        _ ≤ _ := by linarith
    · rw [Int.tdiv_eq_ediv hS (le_of_lt hn0)]
      have h := Int.ediv_add_emod (((df_filtered pt sel).rows.map Record.age).sum)
        (((df_filtered pt sel).rows.length : Int))
      have h2 := Int.emod_lt_of_pos (((df_filtered pt sel).rows.map Record.age).sum)
        hn0
      nlinarith [h, h2]
  · intro name hname hnraw
    have hcols : (df_filtered pt sel).drugCols = raw.drugCols :=
      load_data_drugCols raw pt hl
    have hcond : ((df_filtered pt sel).drugCols.contains name &&
        drug_columns.contains name) = true := by
      rw [hcols]
      simp only [Bool.and_eq_true]
      constructor
      · exact List.elem_iff.2 hnraw
      · exact List.elem_iff.2 hname
    unfold indicator_count
    rw [if_pos hcond]
    have hle : ∀ r ∈ (df_filtered pt sel).rows, ∀ q ∈ r.drugs, q.2 ≤ 1 :=
      fun r hr => load_data_drugs_le_one raw pt hl r (List.mem_filter.1 hr).1
    congr 1
    rw [sum_eq_countP_one]
    · rw [List.countP_map, List.countP_eq_length_filter]
      rfl
    · intro x hx
      simp only [List.mem_map] at hx
      obtain ⟨r, hr, rfl⟩ := hx
      exact indicatorVal_le_one r (hle r hr) name

/-- Witness for C8: on `ptF` under the all-pass selection, the Fentanyl
indicator count equals the number of records whose Fentanyl value is 1. -/
theorem C8_scalar_summaries_witness :
    indicator_count (df_filtered ptF selAll) "Fentanyl" =
      some (((df_filtered ptF selAll).rows.filter
        (fun r => indicatorVal r "Fentanyl" == 1)).length) :=
  (C8_scalar_summaries rawF ptF selAll (by decide) (by decide) (by decide)).2.2
    "Fentanyl" (by decide) (by decide)

/-! ### C10 -/

/-- A raw table whose schema has only the Heroin indicator column: the
pipeline skips the other eleven, yet the load succeeds. -/
def rawM : RawTable := { drugCols := ["Heroin"], rows := [rowGood] }

/-- The prepared record derived from `rowGood` under the Heroin-only
schema. -/
def recM : Record :=
  { age := 34, sex := "M", race := "White", deathCounty := "Hartford",
    year := 2015, drugs := [("Heroin", 0)] }

/-- The prepared table `load_data` produces from `rawM`. -/
def ptM : PreparedTable := { drugCols := ["Heroin"], rows := [recM] }

/-- C10: on a filtered view of a loaded table, `sub_counts` produces a
value iff every one of the nine enumerated substance columns exists in
the source schema; a column skipped by the pipeline (the load itself
succeeded) makes `sub_counts` fail with an error instead of skipping the
substance. -/
theorem C10_missing_column (raw : RawTable) (pt : PreparedTable)
    (sel : Selection) (hl : load_data raw = some pt) :
    (sub_counts (df_filtered pt sel)).isSome = true ↔
      ∀ s ∈ substances, s ∈ raw.drugCols := by
  have hcols : (df_filtered pt sel).drugCols = raw.drugCols :=
    load_data_drugCols raw pt hl
  unfold sub_counts
  by_cases hc : substances.all
      (fun s => (df_filtered pt sel).drugCols.contains s) = true
  · rw [if_pos hc]
    simp only [Option.isSome_some, true_iff]
    intro s hs
    have h1 := List.all_eq_true.1 hc s hs
    rw [hcols] at h1
    exact List.elem_iff.1 h1
  · rw [if_neg hc]
    simp only [Option.isSome_none, Bool.false_eq_true, false_iff]
    intro hforall
    apply hc
    rw [List.all_eq_true]
    intro s hs
    rw [hcols]
    exact List.elem_iff.2 (hforall s hs)

/-- Witness for C10: `rawM` loads fine without the other substance
columns, but `sub_counts` on its (filtered) table fails. -/
theorem C10_missing_column_witness :
    sub_counts (df_filtered ptM selAll) = none := by
  have h := C10_missing_column rawM ptM selAll (by decide)
  have h2 : ¬ ∀ s ∈ substances, s ∈ rawM.drugCols := by decide
  cases hs : sub_counts (df_filtered ptM selAll) with
  | none => rfl
  | some v =>
    exact absurd (h.1 (by rw [hs]; rfl)) h2

/-! ### C7 -/

/-- C7 counterexample: on an empty filtered view of a table that has all
nine substance columns, `sub_counts` yields nine zero-count entries — not
an empty sequence — so it is false that all four aggregate reducers over
an empty view yield an empty sequence. -/
theorem C7_counterexample :
    (df_filtered ptF selNone).rows = [] ∧
    sub_counts (df_filtered ptF selNone) ≠ some [] := by
  decide

/-- C7 amended: on an empty filtered view, `total_deaths` is 0, the
`average_age` computation produces no value (the mean of an empty view is
NaN and the code's `int()` conversion fails, rather than surfacing a
"no data" sentinel), `deaths_by_year` and `deaths_by_county` and the
histogram input are empty sequences, and `sub_counts` (when its nine
columns are present) yields one zero-count entry per enumerated
substance rather than an empty sequence. -/
theorem C7_empty_view (t : PreparedTable) (sel : Selection)
    (h : (df_filtered t sel).rows = []) :
    total_deaths (df_filtered t sel) = 0 ∧
    average_age (df_filtered t sel) = none ∧
    deaths_by_year (df_filtered t sel) = [] ∧
    deaths_by_county (df_filtered t sel) = [] ∧
    age_sex_pairs (df_filtered t sel) = [] ∧
    (substances.all (fun s => t.drugCols.contains s) = true →
      sub_counts (df_filtered t sel) =
        some (substances.map (fun s => (s, 0)))) := by
  refine ⟨?_, ?_, ?_, ?_, ?_, ?_⟩
  · simp [total_deaths, h]
  · simp [average_age, h]
  · simp [deaths_by_year, h, sortDedup]
  · simp [deaths_by_county, h, sortByCount]
  · simp [age_sex_pairs, h]
  · intro hall
    have hall2 : substances.all
        (fun s => (df_filtered t sel).drugCols.contains s) = true := hall
    unfold sub_counts
    rw [if_pos hall2, h]
    decide

/-- Witness for C7 (amended) at a concrete empty view: the average-age
computation has no value and the substance chart holds nine zero rows. -/
theorem C7_empty_view_witness :
    average_age (df_filtered ptF selNone) = none ∧
    sub_counts (df_filtered ptF selNone) =
      some (substances.map (fun s => (s, 0))) := by
  have h := C7_empty_view ptF selNone (by decide)
  exact ⟨h.2.1, h.2.2.2.2.2 (by decide)⟩

/-- Witness for C4 (amended): the three-row table has no surviving
text-age row, so its load succeeds. -/
theorem C4_age_coercion_witness :
    (load_data rawT).isSome = true :=
  (C4_age_coercion rawT).1.2 (by
    intro r hr
    have h1 : rawT.rows.filter requiredOk = [rowGood] := by decide
    rw [h1] at hr
    simp only [List.mem_singleton] at hr
    subst hr
    intro s
    simp [rowGood])
